import Mathlib

/-!
# ESP32 PIR motion sensor + MQTT publisher (`src/main.cpp`)

A shallow embedding of the firmware's control logic.  The process-wide
variables of the sketch and the level of the relay pin form the record
`Device`; every call into the board support package or the MQTT client that
*returns* something (`digitalRead`, `millis`, `WiFi.status`,
`mqttClient.connected`, `mqttClient.connect`, `mqttClient.publish`,
`getLocalTime`) is an explicit input of the function that makes the call, and
every call that *does* something is appended to a list of `Effect`s in program
order.
-/

namespace DoAnIoT

/-! ## Constants (main.cpp, lines 13-33) -/

/-- Arduino logic level `LOW`. -/
def LOW : Int := 0

/-- Arduino logic level `HIGH`. -/
def HIGH : Int := 1

/-- PIR sensor output pin. -/
def PIR_PIN : Nat := 27

/-- Relay control pin. -/
def RELAY_PIN : Nat := 26

/-- Topic every message is published on. -/
def MQTT_TOPIC : String := "iot/security/pir/nhom03"

/-- Client identity used for the broker session and as `sensor_id`. -/
def MQTT_CLIENT_ID : String := "ESP32_Nhom03_HoangMinh"

/-- Heartbeat interval in milliseconds. -/
def PUBLISH_INTERVAL : Nat := 200

/-- Reconnect back-off in milliseconds. -/
def RECONNECT_DELAY : Nat := 5000

/-- Number of values of `unsigned long` on the ESP32 (32 bits). -/
def ULONG_MOD : Nat := 4294967296

/-- Subtraction of two `unsigned long` values: `a - b` modulo `2^32`. -/
def usub (a b : Nat) : Nat :=
  (a % ULONG_MOD + (ULONG_MOD - b % ULONG_MOD)) % ULONG_MOD

/-! ## Broken-down time and `strftime` -/

/-- The fields of `struct tm` that the format string of `getTimestamp` reads.
A successful `getLocalTime` fills them with a normalised, non-negative
broken-down time, so they are naturals here. -/
structure Tm where
  tm_sec : Nat
  tm_min : Nat
  tm_hour : Nat
  tm_mday : Nat
  tm_mon : Nat
  tm_year : Nat
  deriving DecidableEq, Repr

/-- Decimal rendering of a natural number. -/
def dec (n : Nat) : List Char := Nat.toDigits 10 n

/-- Decimal rendering zero-padded to at least two characters. -/
def pad2 (n : Nat) : List Char := if n < 10 then '0' :: dec n else dec n

/-- One `strftime` conversion specifier, for the specifiers the sketch uses. -/
def conv (c : Char) (t : Tm) : List Char :=
  if c = 'Y' then dec (t.tm_year + 1900)
  else if c = 'm' then pad2 (t.tm_mon + 1)
  else if c = 'd' then pad2 t.tm_mday
  else if c = 'H' then pad2 t.tm_hour
  else if c = 'M' then pad2 t.tm_min
  else if c = 'S' then pad2 t.tm_sec
  else ['%', c]

/-- Expansion of a `strftime` format: a percent sign and the character after
it are a conversion, every other character is copied. -/
def expand : List Char → Tm → List Char
  | [], _ => []
  | [c], _ => [c]
  | c :: c2 :: rest, t =>
    if c = '%' then conv c2 t ++ expand rest t else c :: expand (c2 :: rest) t

/-- The C library call `strftime(buffer, maxsize, fmt, &t)`: the expansion when
it fits the buffer together with its terminating NUL, nothing otherwise. -/
def strftime (maxsize : Nat) (fmt : String) (t : Tm) : Option String :=
  let out := expand fmt.data t
  if out.length < maxsize then some (String.mk out) else none

/-- `getTimestamp` (main.cpp, lines 197-206).  The argument is the outcome of
`getLocalTime(&timeinfo)`: `none` when the call returns false.  When `strftime`
does not fit the 30-byte buffer C leaves the buffer indeterminate; that case is
rendered as the empty string and does not arise for a normalised time. -/
def getTimestamp (localTime : Option Tm) : String :=
  match localTime with
  | none => "2026-01-06T00:00:00Z"
  | some timeinfo =>
    match strftime 30 "%Y-%m-%dT%H:%M:%SZ" timeinfo with
    | some buffer => buffer
    | none => ""

/-! ## State and effects -/

/-- The global variables of the sketch (main.cpp, lines 40-42) and the level
driven on `RELAY_PIN`. -/
structure Device where
  lastMotionState : Int
  lastPublishTime : Nat
  lastReconnectAttempt : Nat
  relay : Int
  deriving DecidableEq, Repr

/-- The calls of the sketch that act on the outside world. -/
inductive Effect where
  | digitalWrite (pin : Nat) (val : Int)
  | serialPrint (s : String)
  | serialPrintln (s : String)
  | wifiDisconnect
  | wifiReconnect
  | mqttConnect (clientId : String)
  | mqttPublish (topic : String) (payload : String)
  | mqttLoop
  | delay (ms : Nat)
  deriving DecidableEq, Repr

/-- Values written to `RELAY_PIN`, in order. -/
def relayWrites : List Effect → List Int
  | [] => []
  | Effect.digitalWrite pin val :: es =>
    if pin = RELAY_PIN then val :: relayWrites es else relayWrites es
  | _ :: es => relayWrites es

/-- The (topic, payload) pairs handed to `mqttClient.publish`, in order. -/
def publishes : List Effect → List (String × String)
  | [] => []
  | Effect.mqttPublish topic payload :: es => (topic, payload) :: publishes es
  | _ :: es => publishes es

/-- State after `setup` has run: the initialisers of the globals and the
`digitalWrite(RELAY_PIN, LOW)` of main.cpp line 63. -/
def initDevice : Device :=
  { lastMotionState := LOW, lastPublishTime := 0, lastReconnectAttempt := 0, relay := LOW }

/-! ## Event publisher and sensor debouncer -/

/-- `publishMotionEvent` (main.cpp, lines 178-194).  `localTime` is the outcome
of the time query made by `getTimestamp`, `publishOk` the value returned by
`mqttClient.publish`. -/
def publishMotionEvent (motion : Int) (localTime : Option Tm) (publishOk : Bool) :
    List Effect :=
  let payload := "\x7b"
  let payload := payload ++ ("\"timestamp\":\"" ++ getTimestamp localTime ++ "\",")
  let payload := payload ++ ("\"motion\":" ++ toString motion ++ ",")
  let payload := payload ++ ("\"sensor_id\":\"" ++ MQTT_CLIENT_ID ++ "\",")
  let payload := payload ++ "\"location\":\"living_room\""
  let payload := payload ++ "\x7d"
  let success := publishOk
  Effect.mqttPublish MQTT_TOPIC payload ::
    (if success then [Effect.serialPrint "📤 Published: ", Effect.serialPrintln payload]
     else [Effect.serialPrintln "✗ Publish failed!"])

/-- What one call of `handleMotion` reads from its environment. -/
structure MotionIn where
  /-- Value returned by digitalRead(PIR_PIN). -/
  sample : Int
  /-- Value returned by millis(). -/
  now : Nat
  /-- Value returned by mqttClient.connected(). -/
  connected : Bool
  /-- Outcome of getLocalTime, read only when an event is published. -/
  localTime : Option Tm
  /-- Value returned by mqttClient.publish, read only when an event is published. -/
  publishOk : Bool
  deriving DecidableEq, Repr

/-- `handleMotion` (main.cpp, lines 153-176). -/
def handleMotion (d : Device) (i : MotionIn) : Device × List Effect :=
  let currentMotionState := i.sample
  let currentTime := i.now
  let stateChanged : Bool := currentMotionState != d.lastMotionState
  let intervalElapsed : Bool := decide (usub currentTime d.lastPublishTime ≥ PUBLISH_INTERVAL)
  if stateChanged || (currentMotionState == HIGH && intervalElapsed) then
    let d1 : Device × List Effect :=
      if currentMotionState == HIGH then
        ({ d with relay := HIGH },
          [Effect.digitalWrite RELAY_PIN HIGH, Effect.serialPrintln "🔴 MOTION DETECTED!"])
      else
        ({ d with relay := LOW },
          [Effect.digitalWrite RELAY_PIN LOW, Effect.serialPrintln "🟢 No motion"])
    let d2 : Device × List Effect :=
      if i.connected then
        ({ d1.1 with lastPublishTime := currentTime },
          d1.2 ++ publishMotionEvent currentMotionState i.localTime i.publishOk)
      else d1
    ({ d2.1 with lastMotionState := currentMotionState }, d2.2)
  else
    (d, [])

/-- The trigger policy in the words of the specification (section 4.3, step 4):
`state_changed OR (current == HIGH AND interval_elapsed)`, the elapsed time
being the 32-bit unsigned difference of the clock reading and the last publish
time. -/
def TriggerPolicy (d : Device) (i : MotionIn) : Prop :=
  i.sample ≠ d.lastMotionState ∨
    (i.sample = HIGH ∧ usub i.now d.lastPublishTime ≥ PUBLISH_INTERVAL)

instance (d : Device) (i : MotionIn) : Decidable (TriggerPolicy d i) := by
  unfold TriggerPolicy; infer_instance

/-- Evaluate `handleMotion` once per input, in order, threading the state. -/
def runMotion : Device → List MotionIn → Device × List Effect
  | d, [] => (d, [])
  | d, i :: rest =>
    let r := handleMotion d i
    let rs := runMotion r.1 rest
    (rs.1, r.2 ++ rs.2)

/-- State in which the evaluation number `k` (counted from 0) of a run starts. -/
def stateAt (d : Device) (ins : List MotionIn) (k : Nat) : Device :=
  (runMotion d (ins.take k)).1

/-- Whether a result of `handleMotion` comes from its triggered branch: the
branch is the only place that writes the relay pin. -/
def didTrigger (r : Device × List Effect) : Bool :=
  !(relayWrites r.2).isEmpty

/-- Whether evaluation number `k` of a run takes the triggered branch. -/
def triggeredAt (d : Device) (ins : List MotionIn) (k : Nat) : Bool :=
  match ins[k]? with
  | some i => didTrigger (handleMotion (stateAt d ins k) i)
  | none => false

/-! ## Link and session managers, main loop -/

/-- `reconnectWiFi` (main.cpp, lines 115-122).  `gate` is the value of the
`millis()` call in the condition, `stamp` the value of the `millis()` call in
the assignment. -/
def reconnectWiFi (d : Device) (gate stamp : Nat) : Device × List Effect :=
  if usub gate d.lastReconnectAttempt > RECONNECT_DELAY then
    ({ d with lastReconnectAttempt := stamp },
      [Effect.serialPrintln "Reconnecting to WiFi...", Effect.wifiDisconnect,
        Effect.wifiReconnect])
  else
    (d, [])

/-- `reconnectMQTT` (main.cpp, lines 135-150).  `gate` and `stamp` are the two
`millis()` readings, `connectOk` the value returned by `mqttClient.connect`,
`rc` the value of `mqttClient.state()`, `localTime` the outcome of the time
query made by `getTimestamp`. -/
def reconnectMQTT (d : Device) (gate stamp : Nat) (connectOk : Bool) (rc : Int)
    (localTime : Option Tm) : Device × List Effect :=
  if usub gate d.lastReconnectAttempt > RECONNECT_DELAY then
    ({ d with lastReconnectAttempt := stamp },
      [Effect.serialPrint "Connecting to MQTT broker... ",
        Effect.mqttConnect MQTT_CLIENT_ID] ++
      (if connectOk then
        let payload := "\x7b\"timestamp\":\"" ++ getTimestamp localTime ++
          "\",\"motion\":0,\"status\":\"online\"\x7d"
        [Effect.serialPrintln "✓ Connected!", Effect.mqttPublish MQTT_TOPIC payload]
      else
        [Effect.serialPrint "✗ Failed! RC=", Effect.serialPrintln (toString rc)]))
  else
    (d, [])

/-- What one iteration of `loop` reads from its environment, in program order. -/
structure LoopIn where
  /-- Whether WiFi.status() equals WL_CONNECTED at line 75. -/
  wifiConnected : Bool
  /-- Reading of millis() in the condition of reconnectWiFi. -/
  wifiGate : Nat
  /-- Reading of millis() in the assignment of reconnectWiFi. -/
  wifiStamp : Nat
  /-- Value returned by mqttClient.connected() at line 79. -/
  mqttConnected : Bool
  /-- Reading of millis() in the condition of reconnectMQTT. -/
  mqttGate : Nat
  /-- Reading of millis() in the assignment of reconnectMQTT. -/
  mqttStamp : Nat
  /-- Value returned by mqttClient.connect. -/
  connectOk : Bool
  /-- Value of mqttClient.state() after a failed connect. -/
  connectRc : Int
  /-- Outcome of getLocalTime for the online announcement. -/
  onlineTime : Option Tm
  /-- Inputs of the handleMotion call. -/
  motion : MotionIn
  deriving DecidableEq, Repr

/-- Lines 75-77 of `loop`: the link step. -/
def linkStep (d : Device) (i : LoopIn) : Device × List Effect :=
  if !i.wifiConnected then reconnectWiFi d i.wifiGate i.wifiStamp else (d, [])

/-- Lines 79-81 of `loop`: the session step. -/
def sessionStep (d : Device) (i : LoopIn) : Device × List Effect :=
  if !i.mqttConnected then
    reconnectMQTT d i.mqttGate i.mqttStamp i.connectOk i.connectRc i.onlineTime
  else (d, [])

/-- `loop` (main.cpp, lines 74-86). -/
def loop (d : Device) (i : LoopIn) : Device × List Effect :=
  let r1 := linkStep d i
  let r2 := sessionStep r1.1 i
  let r3 := handleMotion r2.1 i.motion
  (r3.1, r1.2 ++ r2.2 ++ [Effect.mqttLoop] ++ r3.2 ++ [Effect.delay 50])

/-- Whether an effect is the request that makes a reconnect attempt. -/
def isAttempt : Effect → Bool
  | Effect.wifiReconnect => true
  | Effect.mqttConnect _ => true
  | _ => false

/-- The value stamped into `lastReconnectAttempt` by a link or session step,
when the step made a reconnect attempt. -/
def stampOf (r : Device × List Effect) : List Nat :=
  if r.2.any isAttempt then [r.1.lastReconnectAttempt] else []

/-- Stamps of the reconnect attempts of one loop iteration, in order. -/
def loopStamps (d : Device) (i : LoopIn) : List Nat :=
  stampOf (linkStep d i) ++ stampOf (sessionStep (linkStep d i).1 i)

/-- Stamps of the reconnect attempts of a sequence of loop iterations. -/
def runStamps : Device → List LoopIn → List Nat
  | _, [] => []
  | d, i :: rest => loopStamps d i ++ runStamps (loop d i).1 rest

/-- The clock readings of one loop iteration, in program order. -/
def readings (i : LoopIn) : List Nat :=
  [i.wifiGate, i.wifiStamp, i.mqttGate, i.mqttStamp, i.motion.now]

/-- The clock readings of a sequence of loop iterations, in program order. -/
def clockReadings : List LoopIn → List Nat
  | [] => []
  | i :: rest => readings i ++ clockReadings rest

/-- The readings are values of the 32-bit counter and never decrease. -/
def ClockOK (ins : List LoopIn) : Prop :=
  (clockReadings ins).Pairwise (fun a b => a ≤ b) ∧ ∀ t ∈ clockReadings ins, t < ULONG_MOD

/-- State in which the `handleMotion` call of a loop iteration starts: the one
left by the link step and the session step (`mqttClient.loop()` touches no
variable of the sketch). -/
def motionEntry (d : Device) (i : LoopIn) : Device :=
  (sessionStep (linkStep d i).1 i).1

/-- Run `loop` once per input, in order, threading the state. -/
def runLoop : Device → List LoopIn → Device × List Effect
  | d, [] => (d, [])
  | d, i :: rest =>
    let r := loop d i
    let rs := runLoop r.1 rest
    (rs.1, r.2 ++ rs.2)

/-- State in which loop iteration number `k` (counted from 0) of an execution
starts. -/
def loopStateAt (d : Device) (ins : List LoopIn) (k : Nat) : Device :=
  (runLoop d (ins.take k)).1

/-! ## Timestamp layout of the specification -/

/-- The ranges of a normalised broken-down time whose year has four digits. -/
def Tm.Normalised (t : Tm) : Prop :=
  t.tm_sec ≤ 60 ∧ t.tm_min ≤ 59 ∧ t.tm_hour ≤ 23 ∧ 1 ≤ t.tm_mday ∧ t.tm_mday ≤ 31 ∧
    t.tm_mon ≤ 11 ∧ t.tm_year + 1900 ≤ 9999

instance (t : Tm) : Decidable t.Normalised := by
  unfold Tm.Normalised; infer_instance

/-- The decimal digit of `n` in the units position. -/
def digit (n : Nat) : Char := Nat.digitChar (n % 10)

/-- The layout `YYYY-MM-DDTHH:MM:SSZ` in the words of the specification: the
year in four digits, the month (counted from 1), day, hour, minute and second
in two digits each, with the separators shown. -/
def iso8601 (t : Tm) : String :=
  String.mk
    [digit ((t.tm_year + 1900) / 1000), digit ((t.tm_year + 1900) / 100),
      digit ((t.tm_year + 1900) / 10), digit (t.tm_year + 1900), '-',
      digit ((t.tm_mon + 1) / 10), digit (t.tm_mon + 1), '-',
      digit (t.tm_mday / 10), digit t.tm_mday, 'T',
      digit (t.tm_hour / 10), digit t.tm_hour, ':',
      digit (t.tm_min / 10), digit t.tm_min, ':',
      digit (t.tm_sec / 10), digit t.tm_sec, 'Z']

/-- The instant 2026-03-09 04:05:07 as a broken-down time. -/
def sampleTime : Tm :=
  { tm_sec := 7, tm_min := 5, tm_hour := 4, tm_mday := 9, tm_mon := 2, tm_year := 126 }

/-! ## Concrete inputs used by the counterexamples and witnesses -/

/-- A `handleMotion` input that samples LOW while offline at clock reading `t`. -/
def idleAt (t : Nat) : MotionIn :=
  { sample := LOW, now := t, connected := false, localTime := none, publishOk := false }

/-- One loop iteration with link and session both down in which 5001 ms pass
between the stamp of `reconnectWiFi` and the gate reading of `reconnectMQTT`. -/
def slowIteration : LoopIn :=
  { wifiConnected := false, wifiGate := 6000, wifiStamp := 6000,
    mqttConnected := false, mqttGate := 11001, mqttStamp := 11001,
    connectOk := false, connectRc := -2, onlineTime := none, motion := idleAt 11001 }

/-- A loop iteration with link and session both down, read 6000 ms after
power-on. -/
def firstAttempt : LoopIn :=
  { wifiConnected := false, wifiGate := 6000, wifiStamp := 6000,
    mqttConnected := false, mqttGate := 6001, mqttStamp := 6001,
    connectOk := false, connectRc := -2, onlineTime := none, motion := idleAt 6002 }

/-- A loop iteration with link and session both down, 5100 ms later. -/
def secondAttempt : LoopIn :=
  { wifiConnected := false, wifiGate := 11100, wifiStamp := 11100,
    mqttConnected := false, mqttGate := 11101, mqttStamp := 11101,
    connectOk := false, connectRc := -2, onlineTime := none, motion := idleAt 11102 }

/-- The two iterations in sequence. -/
def twoAttempts : List LoopIn := [firstAttempt, secondAttempt]

/-- One loop iteration with the link down, read exactly `RECONNECT_DELAY` after
the attempt timer of `initDevice`. -/
def exactDelayIteration : LoopIn :=
  { wifiConnected := false, wifiGate := 5000, wifiStamp := 5000,
    mqttConnected := true, mqttGate := 5000, mqttStamp := 5000,
    connectOk := false, connectRc := 0, onlineTime := none, motion := idleAt 5000 }

/-- One loop iteration with the link down, read 5001 ms after the attempt timer
of `initDevice`, the stamp being read one millisecond after the gate. -/
def eligibleIteration : LoopIn :=
  { wifiConnected := false, wifiGate := 5001, wifiStamp := 5002,
    mqttConnected := true, mqttGate := 5002, mqttStamp := 5002,
    connectOk := false, connectRc := 0, onlineTime := none, motion := idleAt 5003 }

/-- A `handleMotion` input that samples HIGH at clock reading `t` with the given
session status, the clock not synchronised, publishing successfully. -/
def motionAt (t : Nat) (connected : Bool) : MotionIn :=
  { sample := HIGH, now := t, connected := connected, localTime := none, publishOk := true }

/-- Sustained motion sampled every 50 ms while the session is down. -/
def offlineRun : List MotionIn := [motionAt 1000 false, motionAt 1050 false, motionAt 1100 false]

/-- Sustained motion sampled at 1000, 1050 and 1200 ms while the session is up. -/
def onlineRun : List MotionIn := [motionAt 1000 true, motionAt 1050 true, motionAt 1200 true]

/-- A loop iteration at clock reading `t` with the link up and the session in
the given status (no connect attempt succeeds), sampling `sample`. -/
def sampleIteration (t : Nat) (sample : Int) (connected : Bool) : LoopIn :=
  { wifiConnected := true, wifiGate := t, wifiStamp := t,
    mqttConnected := connected, mqttGate := t, mqttStamp := t,
    connectOk := false, connectRc := -2, onlineTime := none,
    motion := { sample := sample, now := t, connected := connected, localTime := none,
                publishOk := true } }

/-- Motion appears while offline, persists, and disappears after the session
is back. -/
def mirrorRun : List LoopIn :=
  [sampleIteration 1000 LOW false, sampleIteration 1050 HIGH false,
   sampleIteration 1100 HIGH false, sampleIteration 1150 LOW true]

/-- A loop iteration 6000 ms after power-on with the link up and the session
down, in which the connect succeeds, the clock is not synchronised, and motion
is sampled and published at 6040 ms. -/
def onlineIteration : LoopIn :=
  { wifiConnected := true, wifiGate := 6000, wifiStamp := 6000,
    mqttConnected := false, mqttGate := 6000, mqttStamp := 6001,
    connectOk := true, connectRc := 0, onlineTime := none,
    motion := { sample := HIGH, now := 6040, connected := true, localTime := none,
                publishOk := true } }

/-- A state whose two timers were stamped 100 ms before the 32-bit counter
wraps, motion being present. -/
def preWrapDevice : Device :=
  { lastMotionState := HIGH, lastPublishTime := 4294967196,
    lastReconnectAttempt := 4294967196, relay := HIGH }

/-! ## Theorems -/

/-- The triggered branch of `handleMotion`, written out. -/
theorem handleMotion_of_policy (d : Device) (i : MotionIn) (h : TriggerPolicy d i) :
    handleMotion d i =
      ({ lastMotionState := i.sample,
         lastPublishTime := if i.connected then i.now else d.lastPublishTime,
         lastReconnectAttempt := d.lastReconnectAttempt,
         relay := if i.sample = HIGH then HIGH else LOW },
        (if i.sample = HIGH then
          [Effect.digitalWrite RELAY_PIN HIGH, Effect.serialPrintln "🔴 MOTION DETECTED!"]
        else
          [Effect.digitalWrite RELAY_PIN LOW, Effect.serialPrintln "🟢 No motion"]) ++
        (if i.connected then publishMotionEvent i.sample i.localTime i.publishOk else [])) := by
  have hc : ((i.sample != d.lastMotionState) ||
      (i.sample == HIGH && decide (usub i.now d.lastPublishTime ≥ PUBLISH_INTERVAL))) = true := by
    rcases h with h | ⟨h1, h2⟩
    · simp [h]
    · simp [h1, h2]
  unfold handleMotion
  simp only [hc, if_true]
  by_cases hs : i.sample = HIGH <;> cases hcon : i.connected <;> simp [hs]

/-- The suppressed branch of `handleMotion`: nothing happens. -/
theorem handleMotion_of_not_policy (d : Device) (i : MotionIn) (h : ¬ TriggerPolicy d i) :
    handleMotion d i = (d, []) := by
  have hc : ((i.sample != d.lastMotionState) ||
      (i.sample == HIGH && decide (usub i.now d.lastPublishTime ≥ PUBLISH_INTERVAL))) = false := by
    unfold TriggerPolicy at h
    push_neg at h
    obtain ⟨h1, h2⟩ := h
    by_cases hs : i.sample = HIGH
    · have := h2 hs
      simp [h1, hs]; omega
    · have hs' : ¬ d.lastMotionState = HIGH := h1 ▸ hs
      simp [h1, hs']
  unfold handleMotion
  simp only [hc]
  rfl

/-- Relay writes of a concatenation of effect lists. -/
theorem relayWrites_append (a b : List Effect) :
    relayWrites (a ++ b) = relayWrites a ++ relayWrites b := by
  induction a with
  | nil => simp [relayWrites]
  | cons e es ih =>
    cases e <;> simp [relayWrites, ih]
    split <;> simp

/-- Publishes of a concatenation of effect lists. -/
theorem publishes_append (a b : List Effect) :
    publishes (a ++ b) = publishes a ++ publishes b := by
  induction a with
  | nil => simp [publishes]
  | cons e es ih => cases e <;> simp [publishes, ih]

/-- No publish effect writes the relay pin. -/
theorem relayWrites_publishMotionEvent (m : Int) (t : Option Tm) (ok : Bool) :
    relayWrites (publishMotionEvent m t ok) = [] := by
  cases ok <;> simp [publishMotionEvent, relayWrites]

/-- The relay writes of a triggered evaluation: one write mirroring the sample. -/
theorem relayWrites_of_policy (d : Device) (i : MotionIn) (h : TriggerPolicy d i) :
    relayWrites (handleMotion d i).2 = [if i.sample = HIGH then HIGH else LOW] := by
  rw [handleMotion_of_policy d i h]
  simp only [relayWrites_append]
  have h2 : relayWrites
      (if i.connected then publishMotionEvent i.sample i.localTime i.publishOk else []) = [] := by
    cases i.connected
    · simp [relayWrites]
    · simp only [if_true]; exact relayWrites_publishMotionEvent _ _ _
  rw [h2]
  by_cases hs : i.sample = HIGH <;> simp [hs, relayWrites, RELAY_PIN]

/-- The triggered branch is taken exactly when the policy holds. -/
theorem didTrigger_iff (d : Device) (i : MotionIn) :
    didTrigger (handleMotion d i) = true ↔ TriggerPolicy d i := by
  by_cases h : TriggerPolicy d i
  · simp [didTrigger, relayWrites_of_policy d i h, h]
  · simp [didTrigger, handleMotion_of_not_policy d i h, h, relayWrites]

/-- C1. Trigger policy of handleMotion: for every stored state, sample, clock
reading and session status, the call takes its triggered branch (it writes the
relay pin, once, with the value mirroring the sample, and sets lastMotionState
to the sample) if and only if `current != lastMotionState` or `current == HIGH`
and the 32-bit difference `now - lastPublishTime` is at least
`PUBLISH_INTERVAL = 200`; when the condition is false the call has no effect at
all (no pin write, no publish) and leaves the whole state unchanged. -/
theorem C1_trigger_policy (d : Device) (i : MotionIn) :
    PUBLISH_INTERVAL = 200 ∧
    (didTrigger (handleMotion d i) = true ↔
      (i.sample ≠ d.lastMotionState ∨
        (i.sample = HIGH ∧ usub i.now d.lastPublishTime ≥ PUBLISH_INTERVAL))) ∧
    ((i.sample ≠ d.lastMotionState ∨
        (i.sample = HIGH ∧ usub i.now d.lastPublishTime ≥ PUBLISH_INTERVAL)) →
      relayWrites (handleMotion d i).2 = [if i.sample = HIGH then HIGH else LOW] ∧
      (handleMotion d i).1.relay = (if i.sample = HIGH then HIGH else LOW) ∧
      (handleMotion d i).1.lastMotionState = i.sample) ∧
    (¬ (i.sample ≠ d.lastMotionState ∨
        (i.sample = HIGH ∧ usub i.now d.lastPublishTime ≥ PUBLISH_INTERVAL)) →
      handleMotion d i = (d, []) ∧
      relayWrites (handleMotion d i).2 = [] ∧ publishes (handleMotion d i).2 = [] ∧
      (handleMotion d i).1.lastMotionState = d.lastMotionState ∧
      (handleMotion d i).1.lastPublishTime = d.lastPublishTime) := by
  refine ⟨rfl, didTrigger_iff d i, ?_, ?_⟩
  · intro h
    have h' : TriggerPolicy d i := h
    refine ⟨relayWrites_of_policy d i h', ?_, ?_⟩ <;> rw [handleMotion_of_policy d i h']
  · intro h
    have h' : ¬ TriggerPolicy d i := h
    rw [handleMotion_of_not_policy d i h']
    simp [relayWrites, publishes]

/-! ### Reconnection gating -/

/-- On readings of a counter that did not wrap, `usub` is plain subtraction. -/
theorem usub_of_le (a b : Nat) (hba : b ≤ a) (ha : a < ULONG_MOD) : usub a b = a - b := by
  unfold usub ULONG_MOD at *
  omega

/-- What the link step does to the attempt timer and which stamp it records. -/
theorem linkStep_spec (d : Device) (i : LoopIn) :
    (linkStep d i).1.lastReconnectAttempt =
        (if i.wifiConnected = false ∧ usub i.wifiGate d.lastReconnectAttempt > RECONNECT_DELAY
          then i.wifiStamp else d.lastReconnectAttempt) ∧
      stampOf (linkStep d i) =
        (if i.wifiConnected = false ∧ usub i.wifiGate d.lastReconnectAttempt > RECONNECT_DELAY
          then [i.wifiStamp] else []) := by
  unfold linkStep reconnectWiFi stampOf
  cases i.wifiConnected <;>
    by_cases h : usub i.wifiGate d.lastReconnectAttempt > RECONNECT_DELAY <;>
    simp [h, isAttempt]

/-- What the session step does to the attempt timer and which stamp it records. -/
theorem sessionStep_spec (d : Device) (i : LoopIn) :
    (sessionStep d i).1.lastReconnectAttempt =
        (if i.mqttConnected = false ∧ usub i.mqttGate d.lastReconnectAttempt > RECONNECT_DELAY
          then i.mqttStamp else d.lastReconnectAttempt) ∧
      stampOf (sessionStep d i) =
        (if i.mqttConnected = false ∧ usub i.mqttGate d.lastReconnectAttempt > RECONNECT_DELAY
          then [i.mqttStamp] else []) := by
  unfold sessionStep reconnectMQTT stampOf
  cases i.mqttConnected <;>
    by_cases h : usub i.mqttGate d.lastReconnectAttempt > RECONNECT_DELAY <;>
    simp [h, isAttempt]

/-- The sensor debouncer never touches the attempt timer. -/
theorem handleMotion_lastReconnectAttempt (d : Device) (i : MotionIn) :
    (handleMotion d i).1.lastReconnectAttempt = d.lastReconnectAttempt := by
  by_cases h : TriggerPolicy d i
  · rw [handleMotion_of_policy d i h]
  · rw [handleMotion_of_not_policy d i h]

/-- The attempt timer after a loop iteration is the one left by the session step. -/
theorem loop_lastReconnectAttempt (d : Device) (i : LoopIn) :
    (loop d i).1.lastReconnectAttempt =
      (sessionStep (linkStep d i).1 i).1.lastReconnectAttempt := by
  unfold loop
  exact handleMotion_lastReconnectAttempt _ _

/-- Spacing of the stamps of a run started in any state whose attempt timer is
not ahead of the clock. -/
theorem runStamps_spaced (ins : List LoopIn) :
    ∀ d : Device,
      (clockReadings ins).Pairwise (fun a b => a ≤ b) →
      (∀ t ∈ clockReadings ins, d.lastReconnectAttempt ≤ t ∧ t < ULONG_MOD) →
      (∀ s ∈ runStamps d ins, d.lastReconnectAttempt + RECONNECT_DELAY < s) ∧
        (runStamps d ins).Pairwise (fun a b => a + RECONNECT_DELAY < b) := by
  induction ins with
  | nil => intro d _ _; simp [runStamps]
  | cons i rest ih =>
    intro d hmono hbound
    simp only [clockReadings, readings, List.cons_append, List.nil_append,
      List.pairwise_cons, List.mem_cons, forall_eq_or_imp] at hmono hbound
    obtain ⟨⟨hgw1, hgw2, hgw3, hgw4, hgwr⟩, ⟨hsw1, hsw2, hsw3, hswr⟩,
      ⟨hgm1, hgm2, hgmr⟩, ⟨hsm1, hsmr⟩, htr, hrest⟩ := hmono
    obtain ⟨⟨hb1, hb1'⟩, ⟨hb2, hb2'⟩, ⟨hb3, hb3'⟩, ⟨hb4, hb4'⟩, ⟨hb5, hb5'⟩, hbr⟩ := hbound
    obtain ⟨hl1, hl2⟩ := linkStep_spec d i
    obtain ⟨hs1, hs2⟩ := sessionStep_spec (linkStep d i).1 i
    have hloop := loop_lastReconnectAttempt d i
    have e1 := usub_of_le i.wifiGate d.lastReconnectAttempt hb1 hb1'
    -- the timer after the link step is between the old timer and the session gate
    have hL1 : d.lastReconnectAttempt ≤ (linkStep d i).1.lastReconnectAttempt ∧
        (linkStep d i).1.lastReconnectAttempt ≤ i.mqttGate := by
      rw [hl1]; split <;> constructor <;> omega
    have e2 := usub_of_le i.mqttGate (linkStep d i).1.lastReconnectAttempt hL1.2 hb3'
    have hL2 : (linkStep d i).1.lastReconnectAttempt ≤ (loop d i).1.lastReconnectAttempt ∧
        (loop d i).1.lastReconnectAttempt ≤ i.mqttStamp := by
      rw [hloop, hs1]; split <;> constructor <;> omega
    have hIH := ih (loop d i).1 hrest (fun t ht => ⟨by
      have := hsmr t ht; omega, (hbr t ht).2⟩)
    obtain ⟨hIH1, hIH2⟩ := hIH
    -- stamps of this iteration
    have hA : ∀ s ∈ stampOf (linkStep d i),
        s = i.wifiStamp ∧ d.lastReconnectAttempt + RECONNECT_DELAY < s ∧
          (linkStep d i).1.lastReconnectAttempt = i.wifiStamp := by
      intro s hs
      rw [hl2] at hs
      split at hs
      · rename_i hc
        simp only [List.mem_singleton] at hs
        rw [hl1, if_pos hc]
        refine ⟨hs, ?_, rfl⟩
        have := hc.2
        omega
      · simp at hs
    have hB : ∀ s ∈ stampOf (sessionStep (linkStep d i).1 i),
        s = i.mqttStamp ∧ (linkStep d i).1.lastReconnectAttempt + RECONNECT_DELAY < s ∧
          (loop d i).1.lastReconnectAttempt = i.mqttStamp := by
      intro s hs
      rw [hs2] at hs
      split at hs
      · rename_i hc
        simp only [List.mem_singleton] at hs
        rw [hloop, hs1, if_pos hc]
        refine ⟨hs, ?_, rfl⟩
        have := hc.2
        omega
      · simp at hs
    simp only [runStamps, loopStamps, List.mem_append, List.pairwise_append]
    refine ⟨?_, ⟨?_, ?_, ?_⟩, hIH2, ?_⟩
    · rintro s ((hs | hs) | hs)
      · exact (hA s hs).2.1
      · have := (hB s hs).2.1; omega
      · have := hIH1 s hs; omega
    · rw [hl2]; split <;> simp
    · rw [hs2]; split <;> simp
    · intro a ha b hb
      have h1 := hA a ha
      have h2 := hB b hb
      omega
    · rintro a (ha | ha) b hb
      · have h1 := hA a ha
        have h3 := hIH1 b hb
        omega
      · have h2 := hB a ha
        have h3 := hIH1 b hb
        omega

/-- A step records at most one stamp. -/
theorem stampOf_length_le (r : Device × List Effect) : (stampOf r).length ≤ 1 := by
  unfold stampOf; split <;> simp

/-- C2 (as amended). Reconnection gating: in every execution of the main loop
from power-on (lastReconnectAttempt = 0, readings of the 32-bit clock
non-decreasing), any two reconnect attempts, by reconnectWiFi or by
reconnectMQTT, stamp clock values that differ by no less than RECONNECT_DELAY
(5000 ms); and within one loop iteration (started in any state) in which both
the link and the session are down, a link attempt and a session attempt do not
both fire provided the clock advances by no more than RECONNECT_DELAY between
the stamp of reconnectWiFi and the gate reading of reconnectMQTT. -/
theorem C2_reconnect_gating :
    RECONNECT_DELAY = 5000 ∧ initDevice.lastReconnectAttempt = 0 ∧
    (∀ ins : List LoopIn, ClockOK ins →
      (runStamps initDevice ins).Pairwise (fun a b => a + RECONNECT_DELAY ≤ b)) ∧
    (∀ (d : Device) (i : LoopIn), i.wifiConnected = false → i.mqttConnected = false →
      usub i.mqttGate i.wifiStamp ≤ RECONNECT_DELAY →
      ¬ ((linkStep d i).2.any isAttempt = true ∧
          (sessionStep (linkStep d i).1 i).2.any isAttempt = true) ∧
        (loopStamps d i).length ≤ 1) := by
  refine ⟨rfl, rfl, ?_, ?_⟩
  · intro ins hclock
    have h := (runStamps_spaced ins initDevice hclock.1
      (fun t ht => ⟨Nat.zero_le t, hclock.2 t ht⟩)).2
    exact h.imp (fun hab => Nat.le_of_lt hab)
  · intro d i hw hm hwin
    obtain ⟨hl1, hl2⟩ := linkStep_spec d i
    obtain ⟨hs1, hs2⟩ := sessionStep_spec (linkStep d i).1 i
    by_cases hfire : usub i.wifiGate d.lastReconnectAttempt > RECONNECT_DELAY
    · -- the link attempt fires and stamps the timer: the session gate stays shut
      have hL : (linkStep d i).1.lastReconnectAttempt = i.wifiStamp := by
        rw [hl1, if_pos ⟨hw, hfire⟩]
      have hno : ¬ usub i.mqttGate (linkStep d i).1.lastReconnectAttempt > RECONNECT_DELAY := by
        rw [hL]; omega
      have hsess : sessionStep (linkStep d i).1 i = ((linkStep d i).1, []) := by
        unfold sessionStep reconnectMQTT
        simp [hm, hno]
      constructor
      · rw [hsess]; simp
      · unfold loopStamps
        rw [hsess]
        have e : stampOf ((linkStep d i).1, ([] : List Effect)) = [] := by simp [stampOf]
        rw [e, List.append_nil]
        exact stampOf_length_le (linkStep d i)
    · have hlink : linkStep d i = (d, []) := by
        unfold linkStep reconnectWiFi
        simp [hw, hfire]
      constructor
      · rw [hlink]; simp
      · unfold loopStamps
        rw [hlink]
        have e : stampOf (d, ([] : List Effect)) = [] := by simp [stampOf]
        rw [e, List.nil_append]
        exact stampOf_length_le (sessionStep d i)

/-- The clock of `twoAttempts` is a non-decreasing 32-bit clock. -/
theorem clockOK_twoAttempts : ClockOK twoAttempts := by
  unfold ClockOK
  constructor
  · decide
  · decide

/-- Witness for C2: a run of two iterations from power-on whose attempts are
stamped 6000 and 11100, and its first iteration, in which the link attempt
fires and the session attempt does not. -/
theorem C2_reconnect_gating_witness :
    ClockOK twoAttempts ∧
    runStamps initDevice twoAttempts = [6000, 11100] ∧
    (runStamps initDevice twoAttempts).Pairwise (fun a b => a + RECONNECT_DELAY ≤ b) ∧
    loopStamps initDevice firstAttempt = [6000] ∧
    (loopStamps initDevice firstAttempt).length ≤ 1 :=
  ⟨clockOK_twoAttempts, by decide,
    C2_reconnect_gating.2.2.1 twoAttempts clockOK_twoAttempts, by decide,
    (C2_reconnect_gating.2.2.2 initDevice firstAttempt rfl rfl (by decide)).2⟩

/-- C2 (as stated) fails: from power-on, with a non-decreasing clock, the
iteration `slowIteration` has link and session both down and both a link
attempt (stamped 6000) and a session attempt (stamped 11001) fire in it. -/
theorem C2_counterexample :
    ClockOK [slowIteration] ∧
    slowIteration.wifiConnected = false ∧ slowIteration.mqttConnected = false ∧
    (linkStep initDevice slowIteration).2.any isAttempt = true ∧
    (sessionStep (linkStep initDevice slowIteration).1 slowIteration).2.any isAttempt = true ∧
    loopStamps initDevice slowIteration = [6000, 11001] := by
  refine ⟨⟨by decide, by decide⟩, rfl, rfl, by decide, by decide, by decide⟩

/-- C3 (as amended). Link Manager eligibility: in every state in which the link
status is not connected, when strictly more than RECONNECT_DELAY (5000 ms) has
elapsed since lastReconnectAttempt (32-bit difference of the gate reading and
the timer) the loop's link step prints its diagnostic line, issues the
disconnect-then-reconnect request and sets lastReconnectAttempt to the clock
reading taken for the stamp, leaving the rest of the state alone; when
RECONNECT_DELAY or less has elapsed (exactly RECONNECT_DELAY included) it issues
nothing and leaves the state unchanged. -/
theorem C3_link_eligibility (d : Device) (i : LoopIn) (hdown : i.wifiConnected = false) :
    RECONNECT_DELAY = 5000 ∧
    (usub i.wifiGate d.lastReconnectAttempt > RECONNECT_DELAY →
      linkStep d i =
        ({ d with lastReconnectAttempt := i.wifiStamp },
          [Effect.serialPrintln "Reconnecting to WiFi...", Effect.wifiDisconnect,
            Effect.wifiReconnect])) ∧
    (usub i.wifiGate d.lastReconnectAttempt ≤ RECONNECT_DELAY → linkStep d i = (d, [])) := by
  refine ⟨rfl, ?_, ?_⟩
  · intro h
    unfold linkStep reconnectWiFi
    simp [hdown, h]
  · intro h
    have h' : ¬ usub i.wifiGate d.lastReconnectAttempt > RECONNECT_DELAY := by omega
    unfold linkStep reconnectWiFi
    simp [hdown, h']

/-- Witness for C3: the link step of `eligibleIteration` from power-on, where
5001 ms have elapsed, stamps the timer with the second reading, 5002. -/
theorem C3_link_eligibility_witness :
    eligibleIteration.wifiConnected = false ∧
    usub eligibleIteration.wifiGate initDevice.lastReconnectAttempt > RECONNECT_DELAY ∧
    linkStep initDevice eligibleIteration =
      ({ initDevice with lastReconnectAttempt := 5002 },
        [Effect.serialPrintln "Reconnecting to WiFi...", Effect.wifiDisconnect,
          Effect.wifiReconnect]) :=
  ⟨rfl, by decide, (C3_link_eligibility initDevice eligibleIteration rfl).2.1 (by decide)⟩

/-- C3 (as stated) fails: with the link down and exactly RECONNECT_DELAY
elapsed since lastReconnectAttempt, the link step issues nothing and leaves
lastReconnectAttempt unchanged. -/
theorem C3_counterexample :
    exactDelayIteration.wifiConnected = false ∧
    usub exactDelayIteration.wifiGate initDevice.lastReconnectAttempt = RECONNECT_DELAY ∧
    usub exactDelayIteration.wifiGate initDevice.lastReconnectAttempt ≥ RECONNECT_DELAY ∧
    linkStep initDevice exactDelayIteration = (initDevice, []) ∧
    (linkStep initDevice exactDelayIteration).1.lastReconnectAttempt = 0 := by
  refine ⟨rfl, by decide, by decide, by decide, by decide⟩

/-! ### Payloads and timestamps -/

/-- The pieces appended by `publishMotionEvent` add up to the documented text. -/
theorem motion_payload_text (ts dg : String) :
    "\x7b" ++ ("\"timestamp\":\"" ++ ts ++ "\",") ++ ("\"motion\":" ++ dg ++ ",") ++
        ("\"sensor_id\":\"" ++ MQTT_CLIENT_ID ++ "\",") ++ "\"location\":\"living_room\"" ++
        "\x7d" =
      "\x7b\"timestamp\":\"" ++ ts ++ "\",\"motion\":" ++ dg ++
        ",\"sensor_id\":\"ESP32_Nhom03_HoangMinh\",\"location\":\"living_room\"\x7d" := by
  apply String.ext
  simp only [String.data_append, List.append_assoc]
  rfl

/-- The one publish of `publishMotionEvent`, for any motion value. -/
theorem publishes_publishMotionEvent (m : Int) (q : Option Tm) (ok : Bool) :
    publishes (publishMotionEvent m q ok) =
      [(MQTT_TOPIC, "\x7b\"timestamp\":\"" ++ getTimestamp q ++ "\",\"motion\":" ++ toString m ++
        ",\"sensor_id\":\"ESP32_Nhom03_HoangMinh\",\"location\":\"living_room\"\x7d")] := by
  unfold publishMotionEvent
  simp only [publishes, motion_payload_text]
  cases ok <;> simp [publishes]

/-- C4. Motion payload shape: for every motion value m in {0, 1} and every
outcome of the time query, with ts the string returned by getTimestamp, the one
text that publishMotionEvent(m) submits to the session, on the fixed topic
iot/security/pir/nhom03, is exactly
{"timestamp":"ts","motion":m,"sensor_id":"ESP32_Nhom03_HoangMinh","location":"living_room"}
with m rendered as the bare digit 0 or 1, whatever the publish call returns. -/
theorem C4_motion_payload (m : Int) (hm : m = 0 ∨ m = 1) (q : Option Tm) (ok : Bool) :
    MQTT_TOPIC = "iot/security/pir/nhom03" ∧
    publishes (publishMotionEvent m q ok) =
      [(MQTT_TOPIC, "\x7b\"timestamp\":\"" ++ getTimestamp q ++ "\",\"motion\":" ++
        (if m = 0 then "0" else "1") ++
        ",\"sensor_id\":\"ESP32_Nhom03_HoangMinh\",\"location\":\"living_room\"\x7d")] := by
  have hd : toString m = (if m = 0 then "0" else "1") := by
    rcases hm with rfl | rfl <;> rfl
  rw [publishes_publishMotionEvent, hd]
  exact ⟨rfl, rfl⟩

/-- Witness for C4: motion 1 published before the clock is synchronised. -/
theorem C4_motion_payload_witness :
    ((1 : Int) = 0 ∨ (1 : Int) = 1) ∧
    publishes (publishMotionEvent 1 none true) =
      [("iot/security/pir/nhom03",
        "\x7b\"timestamp\":\"2026-01-06T00:00:00Z\",\"motion\":1,\"sensor_id\":\"ESP32_Nhom03_HoangMinh\",\"location\":\"living_room\"\x7d")] :=
  ⟨Or.inr rfl, (C4_motion_payload 1 (Or.inr rfl) none true).2.trans (by decide)⟩

/-- Two-digit rendering of a field below 100. -/
theorem pad2_eq (n : Nat) (h : n < 100) : pad2 n = [digit (n / 10), digit n] := by
  unfold digit
  interval_cases n <;> rfl

/-- Rendering of a four-digit year. -/
theorem dec_four (n : Nat) (h1 : 1000 ≤ n) (h2 : n < 10000) :
    dec n = [digit (n / 1000), digit (n / 100), digit (n / 10), digit n] := by
  obtain ⟨k, rfl⟩ : ∃ k, n = k + 4 := ⟨n - 4, by omega⟩
  have a1 : (k + 4) / 10 ≠ 0 := by omega
  have a2 : (k + 4) / 10 / 10 ≠ 0 := by omega
  have a3 : (k + 4) / 10 / 10 / 10 ≠ 0 := by omega
  have a4 : (k + 4) / 10 / 10 / 10 / 10 = 0 := by omega
  have b1 : (k + 4) / 10 / 10 / 10 % 10 = (k + 4) / 1000 % 10 := by omega
  have b2 : (k + 4) / 10 / 10 % 10 = (k + 4) / 100 % 10 := by omega
  simp only [dec, digit, Nat.toDigits, Nat.toDigitsCore, a1, a2, a3, a4, if_true, if_false,
    b1, b2]

/-- The expansion of the format of `getTimestamp`, field by field. -/
theorem expand_format (t : Tm) :
    expand "%Y-%m-%dT%H:%M:%SZ".data t =
      dec (t.tm_year + 1900) ++ '-' :: (pad2 (t.tm_mon + 1) ++ '-' :: (pad2 t.tm_mday ++
        'T' :: (pad2 t.tm_hour ++ ':' :: (pad2 t.tm_min ++ ':' :: (pad2 t.tm_sec ++ ['Z']))))) := by
  have hf : "%Y-%m-%dT%H:%M:%SZ".data =
      ['%', 'Y', '-', '%', 'm', '-', '%', 'd', 'T', '%', 'H', ':', '%', 'M', ':', '%', 'S',
        'Z'] := rfl
  rw [hf]
  simp [expand, conv]

/-- On a normalised time `getTimestamp` produces the documented layout. -/
theorem getTimestamp_some (t : Tm) (h : t.Normalised) :
    getTimestamp (some t) = iso8601 t := by
  obtain ⟨h1, h2, h3, h4, h5, h6, h7⟩ := h
  have he := expand_format t
  unfold getTimestamp strftime
  simp only [he]
  rw [dec_four _ (by omega) (by omega), pad2_eq _ (by omega : t.tm_mon + 1 < 100),
    pad2_eq _ (by omega : t.tm_mday < 100), pad2_eq _ (by omega : t.tm_hour < 100),
    pad2_eq _ (by omega : t.tm_min < 100), pad2_eq _ (by omega : t.tm_sec < 100)]
  simp [iso8601]

/-- The online announcement of `reconnectMQTT` with the sentinel timestamp. -/
theorem online_payload_sentinel :
    "\x7b\"timestamp\":\"" ++ getTimestamp none ++ "\",\"motion\":0,\"status\":\"online\"\x7d" =
      "\x7b\"timestamp\":\"2026-01-06T00:00:00Z\",\"motion\":0,\"status\":\"online\"\x7d" := by
  decide

/-- C5. Sentinel timestamp: whenever the local-time query fails, getTimestamp
returns exactly the literal 2026-01-06T00:00:00Z, so the motion event published
by publishMotionEvent and the online announcement published by reconnectMQTT
(gate passed, connect succeeded) before time sync carry
"timestamp":"2026-01-06T00:00:00Z"; when the query succeeds with a normalised
broken-down time the result is that time laid out as YYYY-MM-DDTHH:MM:SSZ
(20 characters). -/
theorem C5_sentinel_timestamp :
    getTimestamp none = "2026-01-06T00:00:00Z" ∧
    (∀ (m : Int) (ok : Bool),
      publishes (publishMotionEvent m none ok) =
        [(MQTT_TOPIC, "\x7b\"timestamp\":\"2026-01-06T00:00:00Z\",\"motion\":" ++ toString m ++
          ",\"sensor_id\":\"ESP32_Nhom03_HoangMinh\",\"location\":\"living_room\"\x7d")]) ∧
    (∀ (d : Device) (gate stamp : Nat) (rc : Int),
      usub gate d.lastReconnectAttempt > RECONNECT_DELAY →
      publishes (reconnectMQTT d gate stamp true rc none).2 =
        [(MQTT_TOPIC,
          "\x7b\"timestamp\":\"2026-01-06T00:00:00Z\",\"motion\":0,\"status\":\"online\"\x7d")]) ∧
    (∀ t : Tm, t.Normalised →
      getTimestamp (some t) = iso8601 t ∧ (getTimestamp (some t)).length = 20) := by
  refine ⟨rfl, ?_, ?_, ?_⟩
  · intro m ok
    rw [publishes_publishMotionEvent]
    have e : "\x7b\"timestamp\":\"" ++ getTimestamp none ++ "\",\"motion\":" ++ toString m ++
          ",\"sensor_id\":\"ESP32_Nhom03_HoangMinh\",\"location\":\"living_room\"\x7d" =
        "\x7b\"timestamp\":\"2026-01-06T00:00:00Z\",\"motion\":" ++ toString m ++
          ",\"sensor_id\":\"ESP32_Nhom03_HoangMinh\",\"location\":\"living_room\"\x7d" := by
      apply String.ext
      simp only [String.data_append, List.append_assoc]
      rfl
    rw [e]
  · intro d gate stamp rc h
    unfold reconnectMQTT
    simp only [h, if_true, online_payload_sentinel]
    simp [publishes]
  · intro t ht
    rw [getTimestamp_some t ht]
    exact ⟨rfl, rfl⟩

/-- Witness for C5: a synchronised clock at 2026-03-09 04:05:07, and the online
announcement of a first successful connect 6000 ms after power-on without time
sync. -/
theorem C5_sentinel_timestamp_witness :
    sampleTime.Normalised ∧ getTimestamp (some sampleTime) = "2026-03-09T04:05:07Z" ∧
    usub 6000 initDevice.lastReconnectAttempt > RECONNECT_DELAY ∧
    publishes (reconnectMQTT initDevice 6000 6000 true 0 none).2 =
      [(MQTT_TOPIC,
        "\x7b\"timestamp\":\"2026-01-06T00:00:00Z\",\"motion\":0,\"status\":\"online\"\x7d")] :=
  ⟨by decide, (C5_sentinel_timestamp.2.2.2 sampleTime (by decide)).1.trans (by decide),
    by decide, C5_sentinel_timestamp.2.2.1 initDevice 6000 6000 0 (by decide)⟩

/-! ### Single evaluations of the debouncer -/

/-- The publishes of a triggered evaluation: one when connected, none otherwise. -/
theorem publishes_of_policy (d : Device) (i : MotionIn) (h : TriggerPolicy d i) :
    publishes (handleMotion d i).2 =
      (if i.connected then publishes (publishMotionEvent i.sample i.localTime i.publishOk)
        else []) := by
  rw [handleMotion_of_policy d i h, publishes_append]
  by_cases hs : i.sample = HIGH <;> cases i.connected <;> simp [hs, publishes]

/-- C6. Offline trigger: for every call of handleMotion in which the trigger
condition holds and the session is not connected, the relay pin is still
driven, once, to mirror the sample (HIGH for a HIGH sample, LOW otherwise), no
publish call is made, lastMotionState is set to the sample, and lastPublishTime
is left unchanged. -/
theorem C6_offline_trigger (d : Device) (i : MotionIn)
    (htrig : i.sample ≠ d.lastMotionState ∨
      (i.sample = HIGH ∧ usub i.now d.lastPublishTime ≥ PUBLISH_INTERVAL))
    (hoff : i.connected = false) :
    relayWrites (handleMotion d i).2 = [if i.sample = HIGH then HIGH else LOW] ∧
    (handleMotion d i).1.relay = (if i.sample = HIGH then HIGH else LOW) ∧
    publishes (handleMotion d i).2 = [] ∧
    (handleMotion d i).1.lastMotionState = i.sample ∧
    (handleMotion d i).1.lastPublishTime = d.lastPublishTime := by
  have h : TriggerPolicy d i := htrig
  refine ⟨relayWrites_of_policy d i h, ?_, ?_, ?_, ?_⟩
  · rw [handleMotion_of_policy d i h]
  · rw [publishes_of_policy d i h, hoff]; rfl
  · rw [handleMotion_of_policy d i h]
  · rw [handleMotion_of_policy d i h, hoff]; rfl

/-- Witness for C6: motion is detected 1000 ms after power-on while offline. -/
theorem C6_offline_trigger_witness :
    relayWrites (handleMotion initDevice
        { sample := HIGH, now := 1000, connected := false, localTime := none,
          publishOk := false }).2 = [HIGH] ∧
    publishes (handleMotion initDevice
        { sample := HIGH, now := 1000, connected := false, localTime := none,
          publishOk := false }).2 = [] :=
  have h := C6_offline_trigger initDevice
    { sample := HIGH, now := 1000, connected := false, localTime := none, publishOk := false }
    (Or.inl (by decide)) rfl
  ⟨h.1, h.2.2.1⟩

/-- After every call `lastMotionState` equals the sample of that call. -/
theorem handleMotion_lastMotionState (d : Device) (i : MotionIn) :
    (handleMotion d i).1.lastMotionState = i.sample := by
  by_cases h : TriggerPolicy d i
  · rw [handleMotion_of_policy d i h]
  · rw [handleMotion_of_not_policy d i h]
    unfold TriggerPolicy at h
    push_neg at h
    exact h.1.symm

/-- C7. Every transition is reported immediately while connected: starting from
lastMotionState = LOW with the session connected throughout, for every three
clock readings t0 <= t1 <= t2 with t2 - t0 < PUBLISH_INTERVAL, the evaluations
handleMotion(LOW at t0), handleMotion(HIGH at t1), handleMotion(LOW at t2)
produce exactly two publishes on the fixed topic, the first with motion 1 and
the second with motion 0, and exactly two relay writes, HIGH then LOW; the
first evaluation does nothing.  (The bounds on the readings are not used: the
result holds however the three readings are spaced.) -/
theorem C7_transitions_reported (d : Device) (hlow : d.lastMotionState = LOW)
    (t0 t1 t2 : Nat) (_h01 : t0 ≤ t1) (_h12 : t1 ≤ t2) (_hwin : t2 - t0 < PUBLISH_INTERVAL)
    (q0 q1 q2 : Option Tm) (ok0 ok1 ok2 : Bool) :
    handleMotion d
        { sample := LOW, now := t0, connected := true, localTime := q0, publishOk := ok0 } =
      (d, []) ∧
    publishes (runMotion d
        [{ sample := LOW, now := t0, connected := true, localTime := q0, publishOk := ok0 },
         { sample := HIGH, now := t1, connected := true, localTime := q1, publishOk := ok1 },
         { sample := LOW, now := t2, connected := true, localTime := q2, publishOk := ok2 }]).2 =
      [(MQTT_TOPIC, "\x7b\"timestamp\":\"" ++ getTimestamp q1 ++
          "\",\"motion\":1,\"sensor_id\":\"ESP32_Nhom03_HoangMinh\",\"location\":\"living_room\"\x7d"),
       (MQTT_TOPIC, "\x7b\"timestamp\":\"" ++ getTimestamp q2 ++
          "\",\"motion\":0,\"sensor_id\":\"ESP32_Nhom03_HoangMinh\",\"location\":\"living_room\"\x7d")] ∧
    relayWrites (runMotion d
        [{ sample := LOW, now := t0, connected := true, localTime := q0, publishOk := ok0 },
         { sample := HIGH, now := t1, connected := true, localTime := q1, publishOk := ok1 },
         { sample := LOW, now := t2, connected := true, localTime := q2, publishOk := ok2 }]).2 =
      [HIGH, LOW] := by
  -- first evaluation: no transition and the sample is not HIGH
  have n0 : ¬ TriggerPolicy d
      { sample := LOW, now := t0, connected := true, localTime := q0, publishOk := ok0 } := by
    unfold TriggerPolicy
    simp [hlow, LOW, HIGH]
  have e0 := handleMotion_of_not_policy d _ n0
  -- second evaluation: LOW to HIGH
  have p1 : TriggerPolicy d
      { sample := HIGH, now := t1, connected := true, localTime := q1, publishOk := ok1 } := by
    unfold TriggerPolicy
    simp [hlow, LOW, HIGH]
  have hs1 : (handleMotion d
        { sample := HIGH, now := t1, connected := true, localTime := q1,
          publishOk := ok1 }).1.lastMotionState = HIGH :=
    handleMotion_lastMotionState d _
  -- third evaluation: HIGH to LOW
  have p2 : TriggerPolicy (handleMotion d
        { sample := HIGH, now := t1, connected := true, localTime := q1, publishOk := ok1 }).1
      { sample := LOW, now := t2, connected := true, localTime := q2, publishOk := ok2 } := by
    unfold TriggerPolicy
    rw [hs1]
    simp [LOW, HIGH]
  have hm1 : toString HIGH = "1" := rfl
  have hm0 : toString LOW = "0" := rfl
  have j1 : ∀ ts : String, "\x7b\"timestamp\":\"" ++ ts ++ "\",\"motion\":" ++ "1" ++
        ",\"sensor_id\":\"ESP32_Nhom03_HoangMinh\",\"location\":\"living_room\"\x7d" =
      "\x7b\"timestamp\":\"" ++ ts ++
        "\",\"motion\":1,\"sensor_id\":\"ESP32_Nhom03_HoangMinh\",\"location\":\"living_room\"\x7d" := by
    intro ts
    apply String.ext
    simp only [String.data_append, List.append_assoc]
    rfl
  have j0 : ∀ ts : String, "\x7b\"timestamp\":\"" ++ ts ++ "\",\"motion\":" ++ "0" ++
        ",\"sensor_id\":\"ESP32_Nhom03_HoangMinh\",\"location\":\"living_room\"\x7d" =
      "\x7b\"timestamp\":\"" ++ ts ++
        "\",\"motion\":0,\"sensor_id\":\"ESP32_Nhom03_HoangMinh\",\"location\":\"living_room\"\x7d" := by
    intro ts
    apply String.ext
    simp only [String.data_append, List.append_assoc]
    rfl
  refine ⟨e0, ?_, ?_⟩
  · simp only [runMotion, e0, List.nil_append, List.append_nil, publishes_append,
      publishes_of_policy _ _ p1, publishes_of_policy _ _ p2, if_true,
      publishes_publishMotionEvent, hm1, hm0, j1, j0]
    rfl
  · simp only [runMotion, e0, List.nil_append, List.append_nil, relayWrites_append,
      relayWrites_of_policy _ _ p1, relayWrites_of_policy _ _ p2]
    simp [LOW, HIGH]

/-- Witness for C7: LOW at 1000 ms, HIGH at 1050 ms, LOW at 1100 ms after
power-on, connected, clock not yet synchronised. -/
theorem C7_transitions_reported_witness :
    relayWrites (runMotion initDevice
        [{ sample := LOW, now := 1000, connected := true, localTime := none, publishOk := true },
         { sample := HIGH, now := 1050, connected := true, localTime := none, publishOk := true },
         { sample := LOW, now := 1100, connected := true, localTime := none,
           publishOk := true }]).2 =
      [HIGH, LOW] :=
  (C7_transitions_reported initDevice rfl 1000 1050 1100 (by decide) (by decide) (by decide)
    none none none true true true).2.2

/-! ### Runs of evaluations -/

/-- The state after a run extended by one evaluation. -/
theorem runMotion_snoc_fst (l : List MotionIn) (i : MotionIn) :
    ∀ d : Device, (runMotion d (l ++ [i])).1 = (handleMotion (runMotion d l).1 i).1 := by
  induction l with
  | nil => intro d; simp [runMotion]
  | cons j rest ih => intro d; simp [runMotion, ih]

/-- A run starts in its initial state. -/
theorem stateAt_zero (d : Device) (ins : List MotionIn) : stateAt d ins 0 = d := by
  simp [stateAt, runMotion]

/-- Each evaluation of a run starts in the state its predecessor left. -/
theorem stateAt_succ (d : Device) (ins : List MotionIn) (k : Nat) (i : MotionIn)
    (hk : ins[k]? = some i) :
    stateAt d ins (k + 1) = (handleMotion (stateAt d ins k) i).1 := by
  unfold stateAt
  rw [List.take_succ, hk]
  exact runMotion_snoc_fst _ _ _

/-- Unfolding of `triggeredAt` at an index inside the run. -/
theorem triggeredAt_eq (d : Device) (ins : List MotionIn) (k : Nat) (i : MotionIn)
    (hk : ins[k]? = some i) :
    triggeredAt d ins k = didTrigger (handleMotion (stateAt d ins k) i) := by
  unfold triggeredAt
  rw [hk]

/-- Membership of the element at a valid index. -/
theorem mem_of_getElem_some (ins : List MotionIn) (k : Nat) (i : MotionIn)
    (hk : ins[k]? = some i) : i ∈ ins := by
  rw [List.getElem?_eq_some] at hk
  obtain ⟨h, rfl⟩ := hk
  exact List.getElem_mem h

/-- After the first evaluation of a run `lastMotionState` is the previous sample. -/
theorem stateAt_lastMotionState (d : Device) (ins : List MotionIn) (k : Nat) (i : MotionIn)
    (hk : ins[k]? = some i) : (stateAt d ins (k + 1)).lastMotionState = i.sample := by
  rw [stateAt_succ d ins k i hk]
  exact handleMotion_lastMotionState _ _

/-- C8. Heartbeat property: for every run of consecutive handleMotion
evaluations whose samples are all HIGH, entered from lastMotionState = LOW,
(1) the first evaluation of the run triggers, and every later evaluation sees
no state change (its sample equals lastMotionState), so the HIGH-entry
transition causes exactly one trigger; and (2) a later evaluation of the run
triggers exactly when the 32-bit difference now - lastPublishTime is at least
PUBLISH_INTERVAL: no evaluation taken PUBLISH_INTERVAL or more after the last
publish is suppressed. -/
theorem C8_heartbeat (d : Device) (hlow : d.lastMotionState = LOW) (ins : List MotionIn)
    (hhigh : ∀ i ∈ ins, i.sample = HIGH) :
    (0 < ins.length → triggeredAt d ins 0 = true) ∧
    (∀ (k : Nat) (i : MotionIn), 1 ≤ k → ins[k]? = some i →
      i.sample = (stateAt d ins k).lastMotionState ∧
      (usub i.now (stateAt d ins k).lastPublishTime ≥ PUBLISH_INTERVAL →
        triggeredAt d ins k = true) ∧
      (triggeredAt d ins k = true →
        usub i.now (stateAt d ins k).lastPublishTime ≥ PUBLISH_INTERVAL)) := by
  constructor
  · intro hpos
    obtain ⟨i, hi⟩ : ∃ i, ins[0]? = some i := ⟨ins[0], by simp⟩
    rw [triggeredAt_eq d ins 0 i hi, stateAt_zero, didTrigger_iff]
    left
    rw [hhigh i (mem_of_getElem_some ins 0 i hi), hlow]
    decide
  · intro k i hk hi
    obtain ⟨j, rfl⟩ : ∃ j, k = j + 1 := ⟨k - 1, by omega⟩
    have hjlt : j < ins.length := by
      have := (List.getElem?_eq_some.mp hi).1
      omega
    have hj : ins[j]? = some ins[j] := by simp
    have hprev : (stateAt d ins (j + 1)).lastMotionState = HIGH := by
      rw [stateAt_lastMotionState d ins j _ hj]
      exact hhigh _ (List.getElem_mem hjlt)
    have hs : i.sample = HIGH := hhigh i (mem_of_getElem_some ins (j + 1) i hi)
    rw [triggeredAt_eq d ins (j + 1) i hi, didTrigger_iff]
    refine ⟨by rw [hs, hprev], fun h => Or.inr ⟨hs, h⟩, ?_⟩
    rintro (h | h)
    · exact absurd (by rw [hs, hprev]) h
    · exact h.2

/-- Witness for C8: sustained motion sampled at 1000, 1050 and 1200 ms after
power-on while connected triggers at 1000 (entry), not at 1050, and again at
1200 (heartbeat). -/
theorem C8_heartbeat_witness :
    triggeredAt initDevice onlineRun 0 = true ∧
    triggeredAt initDevice onlineRun 1 = false ∧
    triggeredAt initDevice onlineRun 2 = true ∧
    (usub (motionAt 1200 true).now (stateAt initDevice onlineRun 2).lastPublishTime
        ≥ PUBLISH_INTERVAL →
      triggeredAt initDevice onlineRun 2 = true) :=
  have h := C8_heartbeat initDevice rfl onlineRun (by decide)
  ⟨h.1 (by decide), by decide, by decide, (h.2 2 (motionAt 1200 true) (by decide) rfl).2.1⟩

/-- C9 (as amended). Fixed heartbeat cadence: for every run of consecutive
handleMotion evaluations whose samples are all HIGH, started in any state,
between two consecutive triggered evaluations of the run at least
PUBLISH_INTERVAL (200 ms) of clock time elapses (as the 32-bit difference of the
two readings, and as their plain difference when the counter did not wrap),
provided the session is connected at the earlier of the two. -/
theorem C9_heartbeat_cadence (d : Device) (ins : List MotionIn)
    (hhigh : ∀ i ∈ ins, i.sample = HIGH) (a b : Nat) (ia ib : MotionIn) (hab : a < b)
    (ha : ins[a]? = some ia) (hb : ins[b]? = some ib)
    (hta : triggeredAt d ins a = true) (hconn : ia.connected = true)
    (htb : triggeredAt d ins b = true)
    (hbetween : ∀ c, a < c → c < b → triggeredAt d ins c = false) :
    PUBLISH_INTERVAL = 200 ∧ usub ib.now ia.now ≥ PUBLISH_INTERVAL ∧
    (ia.now ≤ ib.now → ib.now < ULONG_MOD → ia.now + PUBLISH_INTERVAL ≤ ib.now) := by
  have hblt : b < ins.length := (List.getElem?_eq_some.mp hb).1
  -- the state seen by every evaluation after `a` up to `b`
  have inv : ∀ n, a + 1 + n ≤ b →
      (stateAt d ins (a + 1 + n)).lastPublishTime = ia.now ∧
        (stateAt d ins (a + 1 + n)).lastMotionState = HIGH := by
    intro n
    induction n with
    | zero =>
      intro _
      rw [triggeredAt_eq d ins a ia ha, didTrigger_iff] at hta
      refine ⟨?_, ?_⟩
      · show (stateAt d ins (a + 1)).lastPublishTime = ia.now
        rw [stateAt_succ d ins a ia ha, handleMotion_of_policy _ _ hta, hconn]
        rfl
      · show (stateAt d ins (a + 1)).lastMotionState = HIGH
        rw [stateAt_lastMotionState d ins a ia ha]
        exact hhigh ia (mem_of_getElem_some ins a ia ha)
    | succ n ih =>
      intro hle
      have hc : ins[a + 1 + n]? = some ins[a + 1 + n] := by
        rw [List.getElem?_eq_getElem]
      have hnot := hbetween (a + 1 + n) (by omega) (by omega)
      rw [triggeredAt_eq d ins _ _ hc] at hnot
      have hnp : ¬ TriggerPolicy (stateAt d ins (a + 1 + n)) ins[a + 1 + n] := by
        rw [← didTrigger_iff, hnot]
        simp
      have hstep : stateAt d ins (a + 1 + (n + 1)) = stateAt d ins (a + 1 + n) := by
        show stateAt d ins (a + 1 + n + 1) = stateAt d ins (a + 1 + n)
        rw [stateAt_succ d ins _ _ hc, handleMotion_of_not_policy _ _ hnp]
      rw [hstep]
      exact ih (by omega)
  obtain ⟨n, hn⟩ : ∃ n, b = a + 1 + n := ⟨b - (a + 1), by omega⟩
  obtain ⟨hpub, hlast⟩ := inv n (by omega)
  rw [← hn] at hpub hlast
  rw [triggeredAt_eq d ins b ib hb, didTrigger_iff] at htb
  have hsb : ib.sample = HIGH := hhigh ib (mem_of_getElem_some ins b ib hb)
  have hel : usub ib.now ia.now ≥ PUBLISH_INTERVAL := by
    rcases htb with h | h
    · exact absurd (by rw [hsb, hlast]) h
    · rw [hpub] at h
      exact h.2
  refine ⟨rfl, hel, ?_⟩
  intro hle hlt
  rw [usub_of_le _ _ hle hlt] at hel
  omega

/-- Witness for C9: in `onlineRun` the triggers at 1000 ms and 1200 ms are
consecutive and 200 ms apart. -/
theorem C9_heartbeat_cadence_witness :
    triggeredAt initDevice onlineRun 0 = true ∧ triggeredAt initDevice onlineRun 2 = true ∧
    (motionAt 1000 true).now + PUBLISH_INTERVAL ≤ (motionAt 1200 true).now :=
  ⟨by decide, by decide,
    (C9_heartbeat_cadence initDevice onlineRun (by decide) 0 2 (motionAt 1000 true)
      (motionAt 1200 true) (by decide) rfl rfl (by decide) rfl (by decide)
      (by
        intro c h1 h2
        have hc : c = 1 := by omega
        subst hc
        decide)).2.2 (by decide) (by decide)⟩

/-- C9 (as stated) fails: with the session down, sustained motion sampled at
1000, 1050 and 1100 ms after power-on triggers at every evaluation, so two
consecutive triggered evaluations (the second and third, neither with a state
change) are 50 ms apart. -/
theorem C9_counterexample :
    (∀ i ∈ offlineRun, i.sample = HIGH) ∧
    triggeredAt initDevice offlineRun 0 = true ∧
    triggeredAt initDevice offlineRun 1 = true ∧
    triggeredAt initDevice offlineRun 2 = true ∧
    (stateAt initDevice offlineRun 1).lastMotionState = HIGH ∧
    (stateAt initDevice offlineRun 2).lastMotionState = HIGH ∧
    offlineRun[1]? = some (motionAt 1050 false) ∧
    offlineRun[2]? = some (motionAt 1100 false) ∧
    (motionAt 1100 false).now - (motionAt 1050 false).now = 50 ∧
    usub (motionAt 1100 false).now (motionAt 1050 false).now < PUBLISH_INTERVAL := by
  refine ⟨by decide, by decide, by decide, by decide, by decide, by decide, rfl, rfl,
    by decide, by decide⟩

/-- A LOW sample in a state whose last observed value is LOW does nothing. -/
theorem handleMotion_low (d : Device) (hlow : d.lastMotionState = LOW) (i : MotionIn)
    (hi : i.sample = LOW) : handleMotion d i = (d, []) := by
  apply handleMotion_of_not_policy
  unfold TriggerPolicy
  rw [hi, hlow]
  rintro (h | ⟨h, _⟩)
  · exact h rfl
  · exact absurd h (by decide)

/-- A run of LOW samples from a LOW state does nothing. -/
theorem runMotion_low (ins : List MotionIn) (d : Device) (hlow : d.lastMotionState = LOW)
    (hall : ∀ i ∈ ins, i.sample = LOW) : runMotion d ins = (d, []) := by
  induction ins with
  | nil => rfl
  | cons i rest ih =>
    have h1 := handleMotion_low d hlow i (hall i (List.mem_cons_self _ _))
    have h2 := ih (fun j hj => hall j (List.mem_cons_of_mem _ hj))
    simp [runMotion, h1, h2]

/-- C10. LOW idempotence: from any state with lastMotionState = LOW, for every
finite sequence of handleMotion evaluations whose samples are all LOW, at
arbitrary clock readings and under any session status, no evaluation triggers:
the run has no effect at all (no relay write, no publish) and the state, with
lastMotionState and lastPublishTime, is unchanged across the whole sequence. -/
theorem C10_low_idempotence (d : Device) (hlow : d.lastMotionState = LOW)
    (ins : List MotionIn) (hall : ∀ i ∈ ins, i.sample = LOW) :
    (∀ k, triggeredAt d ins k = false) ∧
    (∀ k, stateAt d ins k = d) ∧
    runMotion d ins = (d, []) ∧
    relayWrites (runMotion d ins).2 = [] ∧ publishes (runMotion d ins).2 = [] ∧
    (runMotion d ins).1.lastMotionState = d.lastMotionState ∧
    (runMotion d ins).1.lastPublishTime = d.lastPublishTime := by
  have hstate : ∀ k, stateAt d ins k = d := by
    intro k
    unfold stateAt
    rw [runMotion_low (ins.take k) d hlow (fun i hi => hall i (List.mem_of_mem_take hi))]
  have hrun := runMotion_low ins d hlow hall
  refine ⟨?_, hstate, hrun, ?_, ?_, ?_, ?_⟩
  · intro k
    unfold triggeredAt
    cases hk : ins[k]? with
    | none => rfl
    | some i =>
      simp only [hstate k, handleMotion_low d hlow i (hall i (mem_of_getElem_some ins k i hk))]
      rfl
  · rw [hrun]; rfl
  · rw [hrun]; rfl
  · rw [hrun]
  · rw [hrun]

/-- Witness for C10: two LOW samples long after the last publish, one while
connected, leave the power-on state untouched. -/
theorem C10_low_idempotence_witness :
    runMotion initDevice
        [idleAt 40000,
         { sample := LOW, now := 90000, connected := true, localTime := none,
           publishOk := true }] = (initDevice, []) :=
  (C10_low_idempotence initDevice rfl
    [idleAt 40000,
     { sample := LOW, now := 90000, connected := true, localTime := none, publishOk := true }]
    (by decide)).2.2.1

/-! ### Invariants of the debouncer -/

/-- C11. Last-observed invariant: after every call of handleMotion, whether the
call triggered or suppressed, and whatever the clock reading and session
status, lastMotionState equals the value sampled in that call; the same holds
at the end of every loop iteration. -/
theorem C11_last_observed (d : Device) (i : MotionIn) :
    (handleMotion d i).1.lastMotionState = i.sample ∧
    (didTrigger (handleMotion d i) = true → (handleMotion d i).1.lastMotionState = i.sample) ∧
    (didTrigger (handleMotion d i) = false → (handleMotion d i).1.lastMotionState = i.sample) ∧
    (∀ (d0 : Device) (l : LoopIn), (loop d0 l).1.lastMotionState = l.motion.sample) := by
  have h := handleMotion_lastMotionState d i
  exact ⟨h, fun _ => h, fun _ => h, fun d0 l => handleMotion_lastMotionState _ _⟩

/-- The link step changes no variable but the attempt timer. -/
theorem linkStep_frame (d : Device) (i : LoopIn) :
    (linkStep d i).1.lastMotionState = d.lastMotionState ∧
    (linkStep d i).1.lastPublishTime = d.lastPublishTime ∧
    (linkStep d i).1.relay = d.relay := by
  unfold linkStep reconnectWiFi
  cases i.wifiConnected <;>
    by_cases h : usub i.wifiGate d.lastReconnectAttempt > RECONNECT_DELAY <;>
    simp [h]

/-- The session step changes no variable but the attempt timer. -/
theorem sessionStep_frame (d : Device) (i : LoopIn) :
    (sessionStep d i).1.lastMotionState = d.lastMotionState ∧
    (sessionStep d i).1.lastPublishTime = d.lastPublishTime ∧
    (sessionStep d i).1.relay = d.relay := by
  unfold sessionStep reconnectMQTT
  cases i.mqttConnected <;>
    by_cases h : usub i.mqttGate d.lastReconnectAttempt > RECONNECT_DELAY <;>
    simp [h]

/-- The state entering `handleMotion` differs from the state entering the
iteration in the attempt timer only. -/
theorem motionEntry_frame (d : Device) (i : LoopIn) :
    (motionEntry d i).lastMotionState = d.lastMotionState ∧
    (motionEntry d i).lastPublishTime = d.lastPublishTime ∧
    (motionEntry d i).relay = d.relay := by
  obtain ⟨a1, a2, a3⟩ := linkStep_frame d i
  obtain ⟨b1, b2, b3⟩ := sessionStep_frame (linkStep d i).1 i
  unfold motionEntry
  exact ⟨b1.trans a1, b2.trans a2, b3.trans a3⟩

/-- The relay level after a call mirrors the sample, once it mirrored the last
observed value before the call. -/
theorem handleMotion_relay (d : Device) (i : MotionIn)
    (hinv : d.relay = if d.lastMotionState = HIGH then HIGH else LOW) :
    (handleMotion d i).1.relay = if i.sample = HIGH then HIGH else LOW := by
  by_cases h : TriggerPolicy d i
  · rw [handleMotion_of_policy d i h]
  · rw [handleMotion_of_not_policy d i h, hinv]
    unfold TriggerPolicy at h
    push_neg at h
    rw [h.1]

/-- The relay level mirrors the last observed value in every state reached
from a state in which it does. -/
theorem runLoop_relay (ins : List LoopIn) :
    ∀ d : Device, (d.relay = if d.lastMotionState = HIGH then HIGH else LOW) →
      (runLoop d ins).1.relay =
        if (runLoop d ins).1.lastMotionState = HIGH then HIGH else LOW := by
  induction ins with
  | nil => intro d h; exact h
  | cons i rest ih =>
    intro d h
    simp only [runLoop]
    apply ih
    obtain ⟨f1, _, f3⟩ := motionEntry_frame d i
    have hentry : (motionEntry d i).relay =
        if (motionEntry d i).lastMotionState = HIGH then HIGH else LOW := by
      rw [f1, f3]; exact h
    have h1 := handleMotion_relay (motionEntry d i) i.motion hentry
    have h2 := handleMotion_lastMotionState (motionEntry d i) i.motion
    show (handleMotion (motionEntry d i) i.motion).1.relay =
      if (handleMotion (motionEntry d i) i.motion).1.lastMotionState = HIGH then HIGH else LOW
    rw [h1, h2]

/-- C12. Output mirrors input: in every state reachable from power-on
initialisation (relay pin LOW, lastMotionState = LOW) by any sequence of loop
iterations with samples in {LOW, HIGH}, after the handleMotion call of the next
iteration the relay pin is asserted (HIGH) if and only if the value sampled in
that call is HIGH, and deasserted (LOW) otherwise, whatever the link and
session status, the clock readings and the outcome of connects and publishes. -/
theorem C12_output_mirrors_input (ins : List LoopIn)
    (hsamples : ∀ i ∈ ins, i.motion.sample = LOW ∨ i.motion.sample = HIGH)
    (k : Nat) (i : LoopIn) (hk : ins[k]? = some i) :
    initDevice.relay = LOW ∧ initDevice.lastMotionState = LOW ∧
    ((handleMotion (motionEntry (loopStateAt initDevice ins k) i) i.motion).1.relay = HIGH ↔
      i.motion.sample = HIGH) ∧
    ((handleMotion (motionEntry (loopStateAt initDevice ins k) i) i.motion).1.relay = LOW ↔
      i.motion.sample ≠ HIGH) ∧
    (handleMotion (motionEntry (loopStateAt initDevice ins k) i) i.motion).1.relay =
      i.motion.sample ∧
    (loop (loopStateAt initDevice ins k) i).1.relay = i.motion.sample := by
  have hreach : (loopStateAt initDevice ins k).relay =
      if (loopStateAt initDevice ins k).lastMotionState = HIGH then HIGH else LOW :=
    runLoop_relay (ins.take k) initDevice rfl
  obtain ⟨f1, _, f3⟩ := motionEntry_frame (loopStateAt initDevice ins k) i
  have hentry : (motionEntry (loopStateAt initDevice ins k) i).relay =
      if (motionEntry (loopStateAt initDevice ins k) i).lastMotionState = HIGH then HIGH
      else LOW := by
    rw [f1, f3]; exact hreach
  have h1 := handleMotion_relay _ i.motion hentry
  have hmem : i ∈ ins := by
    rw [List.getElem?_eq_some] at hk
    obtain ⟨h, rfl⟩ := hk
    exact List.getElem_mem h
  have hval : (handleMotion (motionEntry (loopStateAt initDevice ins k) i) i.motion).1.relay =
      i.motion.sample := by
    rw [h1]
    rcases hsamples i hmem with h | h <;> rw [h] <;> decide
  refine ⟨rfl, rfl, ?_, ?_, hval, hval⟩
  · rw [hval]
  · rw [h1]
    by_cases hs : i.motion.sample = HIGH
    · simp [hs, HIGH, LOW]
    · simp [hs]

/-- Witness for C12: motion appears at 1050 ms while offline: the relay is HIGH
after that call, and LOW again after the last call of the run. -/
theorem C12_output_mirrors_input_witness :
    loopStateAt initDevice mirrorRun 1 = initDevice ∧
    (loop (loopStateAt initDevice mirrorRun 1) (sampleIteration 1050 HIGH false)).1.relay
      = HIGH ∧
    (loop (loopStateAt initDevice mirrorRun 3) (sampleIteration 1150 LOW true)).1.relay = LOW :=
  ⟨by decide,
    (C12_output_mirrors_input mirrorRun (by decide) 1 (sampleIteration 1050 HIGH false)
      rfl).2.2.2.2.2,
    (C12_output_mirrors_input mirrorRun (by decide) 3 (sampleIteration 1150 LOW true)
      rfl).2.2.2.2.2⟩

/-! ### Session manager and timers -/

/-- C13. Liveness announcement: whenever reconnectMQTT passes the reconnect
gate and the broker connect call succeeds, the connect is followed (after the
diagnostic line) by exactly one publish, on the fixed topic, with text exactly
{"timestamp":"ts","motion":0,"status":"online"} where ts is the value returned
by getTimestamp; when the connect call fails, or the gate does not pass,
reconnectMQTT publishes nothing (and in the latter case does nothing at all). -/
theorem C13_liveness_announcement (d : Device) (gate stamp : Nat) (rc : Int)
    (q : Option Tm) :
    (usub gate d.lastReconnectAttempt > RECONNECT_DELAY →
      (reconnectMQTT d gate stamp true rc q).2 =
          [Effect.serialPrint "Connecting to MQTT broker... ",
            Effect.mqttConnect MQTT_CLIENT_ID, Effect.serialPrintln "✓ Connected!",
            Effect.mqttPublish MQTT_TOPIC
              ("\x7b\"timestamp\":\"" ++ getTimestamp q ++
                "\",\"motion\":0,\"status\":\"online\"\x7d")] ∧
        publishes (reconnectMQTT d gate stamp true rc q).2 =
          [(MQTT_TOPIC, "\x7b\"timestamp\":\"" ++ getTimestamp q ++
            "\",\"motion\":0,\"status\":\"online\"\x7d")] ∧
        publishes (reconnectMQTT d gate stamp false rc q).2 = []) ∧
    (¬ usub gate d.lastReconnectAttempt > RECONNECT_DELAY →
      ∀ connectOk : Bool,
        reconnectMQTT d gate stamp connectOk rc q = (d, []) ∧
          publishes (reconnectMQTT d gate stamp connectOk rc q).2 = []) := by
  constructor
  · intro h
    unfold reconnectMQTT
    simp [h, publishes]
  · intro h connectOk
    unfold reconnectMQTT
    simp [h, publishes]

/-- Witness for C13: the first successful connect, 6000 ms after power-on with
the clock not synchronised, announces itself with the sentinel timestamp; a
connect tried 5000 ms after power-on does not pass the gate. -/
theorem C13_liveness_announcement_witness :
    usub 6000 initDevice.lastReconnectAttempt > RECONNECT_DELAY ∧
    publishes (reconnectMQTT initDevice 6000 6001 true 0 none).2 =
      [("iot/security/pir/nhom03",
        "\x7b\"timestamp\":\"2026-01-06T00:00:00Z\",\"motion\":0,\"status\":\"online\"\x7d")] ∧
    ¬ usub 5000 initDevice.lastReconnectAttempt > RECONNECT_DELAY ∧
    publishes (reconnectMQTT initDevice 5000 5000 true 0 none).2 = [] :=
  ⟨by decide,
    ((C13_liveness_announcement initDevice 6000 6001 0 none).1 (by decide)).2.1.trans
      (by decide),
    by decide,
    ((C13_liveness_announcement initDevice 5000 5000 0 none).2 (by decide) true).2⟩

/-- The publish timer after a call: the clock reading of the call when the call
published, the old value otherwise. -/
theorem handleMotion_lastPublishTime (d : Device) (i : MotionIn) :
    (publishes (handleMotion d i).2 = [] →
      (handleMotion d i).1.lastPublishTime = d.lastPublishTime) ∧
    (publishes (handleMotion d i).2 ≠ [] → (handleMotion d i).1.lastPublishTime = i.now) := by
  by_cases h : TriggerPolicy d i
  · rw [publishes_of_policy d i h, handleMotion_of_policy d i h]
    cases hc : i.connected
    · simp
    · simp [publishes_publishMotionEvent]
  · rw [handleMotion_of_not_policy d i h]
    simp [publishes]

/-- A step that records no stamp leaves the attempt timer alone. -/
theorem linkStep_no_attempt (d : Device) (i : LoopIn) (h : stampOf (linkStep d i) = []) :
    (linkStep d i).1.lastReconnectAttempt = d.lastReconnectAttempt := by
  obtain ⟨h1, h2⟩ := linkStep_spec d i
  rw [h2] at h
  rw [h1]
  split at h
  · simp at h
  · rename_i hc
    rw [if_neg hc]

/-- A step that records no stamp leaves the attempt timer alone. -/
theorem sessionStep_no_attempt (d : Device) (i : LoopIn)
    (h : stampOf (sessionStep d i) = []) :
    (sessionStep d i).1.lastReconnectAttempt = d.lastReconnectAttempt := by
  obtain ⟨h1, h2⟩ := sessionStep_spec d i
  rw [h2] at h
  rw [h1]
  split at h
  · simp at h
  · rename_i hc
    rw [if_neg hc]

/-- A step records no stamp exactly when it issues no reconnect request. -/
theorem stampOf_eq_nil (r : Device × List Effect) :
    stampOf r = [] ↔ r.2.any isAttempt = false := by
  unfold stampOf
  cases h : r.2.any isAttempt <;> simp

/-- C14. Timers are reset only when the gated action is taken: over one loop
iteration, the link and session steps (the online announcement included) leave
lastPublishTime alone; lastPublishTime is unchanged at the end of the iteration
when handleMotion publishes nothing, and equals the clock reading taken at the
start of the handleMotion call when it publishes; lastReconnectAttempt is
unchanged at the end of the iteration unless reconnectWiFi or reconnectMQTT
issues a reconnect request in it, and handleMotion never changes it. -/
theorem C14_timers_frame (d : Device) (i : LoopIn) :
    (motionEntry d i).lastPublishTime = d.lastPublishTime ∧
    (publishes (handleMotion (motionEntry d i) i.motion).2 = [] →
      (loop d i).1.lastPublishTime = d.lastPublishTime) ∧
    (publishes (handleMotion (motionEntry d i) i.motion).2 ≠ [] →
      (loop d i).1.lastPublishTime = i.motion.now) ∧
    ((loop d i).1.lastPublishTime ≠ d.lastPublishTime →
      publishes (handleMotion (motionEntry d i) i.motion).2 ≠ [] ∧
        (loop d i).1.lastPublishTime = i.motion.now) ∧
    ((linkStep d i).2.any isAttempt = false →
      (sessionStep (linkStep d i).1 i).2.any isAttempt = false →
      (loop d i).1.lastReconnectAttempt = d.lastReconnectAttempt) ∧
    ((loop d i).1.lastReconnectAttempt ≠ d.lastReconnectAttempt →
      (linkStep d i).2.any isAttempt = true ∨
        (sessionStep (linkStep d i).1 i).2.any isAttempt = true) ∧
    (∀ (d0 : Device) (m : MotionIn),
      (handleMotion d0 m).1.lastReconnectAttempt = d0.lastReconnectAttempt) := by
  obtain ⟨_, f2, _⟩ := motionEntry_frame d i
  obtain ⟨p1, p2⟩ := handleMotion_lastPublishTime (motionEntry d i) i.motion
  have hloop : (loop d i).1 = (handleMotion (motionEntry d i) i.motion).1 := rfl
  have hquiet : (linkStep d i).2.any isAttempt = false →
      (sessionStep (linkStep d i).1 i).2.any isAttempt = false →
      (loop d i).1.lastReconnectAttempt = d.lastReconnectAttempt := by
    intro h1 h2
    rw [loop_lastReconnectAttempt,
      sessionStep_no_attempt _ i ((stampOf_eq_nil _).2 h2),
      linkStep_no_attempt d i ((stampOf_eq_nil _).2 h1)]
  refine ⟨f2, ?_, ?_, ?_, hquiet, ?_, handleMotion_lastReconnectAttempt⟩
  · intro h
    rw [hloop, p1 h, f2]
  · intro h
    rw [hloop, p2 h]
  · intro hne
    by_cases h : publishes (handleMotion (motionEntry d i) i.motion).2 = []
    · exact absurd (by rw [hloop, p1 h, f2]) hne
    · exact ⟨h, by rw [hloop, p2 h]⟩
  · intro hne
    by_contra hcon
    push_neg at hcon
    apply hne
    apply hquiet
    · simpa using hcon.1
    · simpa using hcon.2

/-- Witness for C14: in `onlineIteration` the session attempt stamps the
attempt timer with 6001 and the motion event published at 6040 ms stamps the
publish timer, the online announcement leaving it at 0; in an idle iteration
both timers keep their values. -/
theorem C14_timers_frame_witness :
    (motionEntry initDevice onlineIteration).lastPublishTime = 0 ∧
    (loop initDevice onlineIteration).1.lastPublishTime = 6040 ∧
    (loop initDevice onlineIteration).1.lastReconnectAttempt = 6001 ∧
    (loop initDevice (sampleIteration 7000 LOW true)).1.lastPublishTime = 0 ∧
    (loop initDevice (sampleIteration 7000 LOW true)).1.lastReconnectAttempt = 0 :=
  ⟨(C14_timers_frame initDevice onlineIteration).1,
    (C14_timers_frame initDevice onlineIteration).2.2.1 (by decide),
    by decide,
    (C14_timers_frame initDevice (sampleIteration 7000 LOW true)).2.1 (by decide),
    (C14_timers_frame initDevice (sampleIteration 7000 LOW true)).2.2.2.2.1 (by decide)
      (by decide)⟩

/-! ### Publish failure and clock wraparound -/

/-- C15. Publish failure does not affect device state: for every triggered
handleMotion call with the session reported connected, the resulting state
(lastMotionState, lastPublishTime, relay level, attempt timer) is the same
whether the publish call reports success or failure; a failed publish still
stamps lastPublishTime with the clock reading of the call, the call makes one
publish request and no second one, a following evaluation with the same sample
less than PUBLISH_INTERVAL later does nothing (no retry, and for a HIGH sample
the heartbeat is suppressed), and a following HIGH evaluation after a HIGH one
triggers again once PUBLISH_INTERVAL has elapsed. -/
theorem C15_publish_failure (d : Device) (i : MotionIn)
    (htrig : i.sample ≠ d.lastMotionState ∨
      (i.sample = HIGH ∧ usub i.now d.lastPublishTime ≥ PUBLISH_INTERVAL))
    (hconn : i.connected = true) :
    (handleMotion d { i with publishOk := true }).1 =
      (handleMotion d { i with publishOk := false }).1 ∧
    publishes (handleMotion d { i with publishOk := true }).2 =
      publishes (handleMotion d { i with publishOk := false }).2 ∧
    (publishes (handleMotion d { i with publishOk := false }).2).length = 1 ∧
    (handleMotion d { i with publishOk := false }).1.lastMotionState = i.sample ∧
    (handleMotion d { i with publishOk := false }).1.lastPublishTime = i.now ∧
    (handleMotion d { i with publishOk := false }).1.relay =
      (if i.sample = HIGH then HIGH else LOW) ∧
    (∀ j : MotionIn, j.sample = i.sample → usub j.now i.now < PUBLISH_INTERVAL →
      handleMotion (handleMotion d { i with publishOk := false }).1 j =
        ((handleMotion d { i with publishOk := false }).1, [])) ∧
    (∀ j : MotionIn, i.sample = HIGH → j.sample = HIGH →
      usub j.now i.now ≥ PUBLISH_INTERVAL →
      didTrigger (handleMotion (handleMotion d { i with publishOk := false }).1 j) = true) := by
  have pf : TriggerPolicy d { i with publishOk := false } := htrig
  have pt : TriggerPolicy d { i with publishOk := true } := htrig
  have ef := handleMotion_of_policy d _ pf
  have et := handleMotion_of_policy d _ pt
  have hlast : (handleMotion d { i with publishOk := false }).1.lastMotionState = i.sample := by
    rw [ef]
  have hpub : (handleMotion d { i with publishOk := false }).1.lastPublishTime = i.now := by
    rw [ef]
    simp [hconn]
  refine ⟨by rw [ef, et], ?_, ?_, hlast, hpub, by rw [ef], ?_, ?_⟩
  · rw [publishes_of_policy d _ pt, publishes_of_policy d _ pf]
    simp only [hconn, if_true, publishes_publishMotionEvent]
  · rw [publishes_of_policy d _ pf]
    simp only [hconn, if_true, publishes_publishMotionEvent, List.length_singleton]
  · intro j hj hlt
    apply handleMotion_of_not_policy
    unfold TriggerPolicy
    rw [hlast, hpub]
    rintro (h | ⟨_, h⟩)
    · exact h hj
    · omega
  · intro j _ hj hge
    rw [didTrigger_iff]
    right
    rw [hpub]
    exact ⟨hj, hge⟩

/-- Witness for C15: motion detected 1000 ms after power-on while connected,
the publish failing: the timer is stamped 1000, the evaluation at 1050 ms does
nothing and the one at 1200 ms triggers. -/
theorem C15_publish_failure_witness :
    (handleMotion initDevice { motionAt 1000 true with publishOk := false }).1.lastPublishTime
      = 1000 ∧
    handleMotion (handleMotion initDevice { motionAt 1000 true with publishOk := false }).1
        (motionAt 1050 true) =
      ((handleMotion initDevice { motionAt 1000 true with publishOk := false }).1, []) ∧
    didTrigger (handleMotion
      (handleMotion initDevice { motionAt 1000 true with publishOk := false }).1
      (motionAt 1200 true)) = true :=
  have h := C15_publish_failure initDevice (motionAt 1000 true) (Or.inl (by decide)) rfl
  ⟨h.2.2.2.2.1, h.2.2.2.2.2.2.1 (motionAt 1050 true) rfl (by decide),
    h.2.2.2.2.2.2.2 (motionAt 1200 true) rfl rfl (by decide)⟩

/-- The 32-bit difference of two readings of a counter is the true elapsed
time, when that is below `2^32`. -/
theorem usub_wrap (T e : Nat) (he : e < ULONG_MOD) :
    usub ((T + e) % ULONG_MOD) (T % ULONG_MOD) = e := by
  unfold usub ULONG_MOD at *
  omega

/-- C16. Clock wraparound: the elapsed-time tests in handleMotion,
reconnectWiFi and reconnectMQTT subtract 32-bit unsigned millisecond counters:
for a true time T of the last stamp and a true elapsed time e below 2^32, the
readings T mod 2^32 and (T + e) mod 2^32 have 32-bit difference exactly e, also
when the counter wrapped in between; hence handleMotion decides its heartbeat
gate as e >= 200 and reconnectWiFi and reconnectMQTT decide their gate as
e > 5000. -/
theorem C16_clock_wraparound (T e : Nat) (he : e < ULONG_MOD) :
    ULONG_MOD = 2 ^ 32 ∧ PUBLISH_INTERVAL = 200 ∧ RECONNECT_DELAY = 5000 ∧
    usub ((T + e) % ULONG_MOD) (T % ULONG_MOD) = e ∧
    (∀ (d : Device) (i : MotionIn), d.lastPublishTime = T % ULONG_MOD →
      i.now = (T + e) % ULONG_MOD →
      (didTrigger (handleMotion d i) = true ↔
        (i.sample ≠ d.lastMotionState ∨ (i.sample = HIGH ∧ e ≥ PUBLISH_INTERVAL)))) ∧
    (∀ (d : Device) (stamp : Nat), d.lastReconnectAttempt = T % ULONG_MOD →
      ((reconnectWiFi d ((T + e) % ULONG_MOD) stamp).2.any isAttempt = true ↔
        e > RECONNECT_DELAY)) ∧
    (∀ (d : Device) (stamp : Nat) (connectOk : Bool) (rc : Int) (q : Option Tm),
      d.lastReconnectAttempt = T % ULONG_MOD →
      ((reconnectMQTT d ((T + e) % ULONG_MOD) stamp connectOk rc q).2.any isAttempt = true ↔
        e > RECONNECT_DELAY)) := by
  have hw := usub_wrap T e he
  refine ⟨by decide, rfl, rfl, hw, ?_, ?_, ?_⟩
  · intro d i hd hi
    rw [didTrigger_iff]
    unfold TriggerPolicy
    rw [hd, hi, hw]
  · intro d stamp hd
    unfold reconnectWiFi
    rw [hd, hw]
    by_cases h : e > RECONNECT_DELAY <;> simp [h, isAttempt]
  · intro d stamp connectOk rc q hd
    unfold reconnectMQTT
    rw [hd, hw]
    by_cases h : e > RECONNECT_DELAY <;> simp [h, isAttempt]

/-- Witness for C16: timers stamped 100 ms before the counter wraps; 250 ms
later the counter reads 150 and the heartbeat fires; 6000 ms later it reads
5900 and the link attempt fires, while 5000 ms later (reading 4900) it does
not. -/
theorem C16_clock_wraparound_witness :
    (4294967196 + 250) % ULONG_MOD = 150 ∧ usub 150 4294967196 = 250 ∧
    didTrigger (handleMotion preWrapDevice (motionAt 150 true)) = true ∧
    (reconnectWiFi preWrapDevice 5900 5900).2.any isAttempt = true ∧
    (reconnectWiFi preWrapDevice 4900 4900).2.any isAttempt = false :=
  ⟨by decide, (C16_clock_wraparound 4294967196 250 (by decide)).2.2.2.1,
    ((C16_clock_wraparound 4294967196 250 (by decide)).2.2.2.2.1 preWrapDevice
      (motionAt 150 true) rfl rfl).2 (Or.inr ⟨rfl, by decide⟩),
    ((C16_clock_wraparound 4294967196 6000 (by decide)).2.2.2.2.2.1 preWrapDevice 5900
      rfl).2 (by decide),
    by decide⟩

end DoAnIoT
